import Mathlib

namespace CFO

/-!
Shallow embedding of the CFO orchestrator and agents
(`src/lib/agents/orchestrator.ts`, `src/lib/utils/file-upload.ts`,
invoicing agent) with proofs of the specified properties.
Numbers are modelled as rationals; JavaScript exceptions as `Except`.
-/

/-- Bool-valued infix test on character lists. -/
def infixOf (needle : List Char) : List Char → Bool
  | [] => needle.isEmpty
  | c :: rest => needle.isPrefixOf (c :: rest) || infixOf needle rest

/-- JS `String.prototype.toLowerCase`, character-wise lowercasing. -/
def toLowerCase (s : String) : String :=
  String.mk (s.data.map Char.toLower)

/-- JS `String.prototype.includes`: substring containment. -/
def includes (message sub : String) : Bool :=
  infixOf sub.toList message.toList

/-- The classifier output consumed by the orchestrator
(`CFORequest` in `src/lib/agents/types.ts`). -/
structure CFORequest where
  userMessage : String
  intent : String
  entities : List (String × String)
  requiredAgents : List String
  reasoning : String
  confidence : ℚ
  deriving Repr, DecidableEq

/-- The final defaulting step of the fallback classifier: "If no specific
intent, default to bookkeeping for financial queries". -/
def defaultIfEmpty (l : List String) : List String :=
  if l = [] then ["Bookkeeping Agent"] else l

/-- `CFOOrchestrator.fallbackIntentAnalysis` (orchestrator.ts lines 146-192):
sequential keyword tests on the lower-cased message; each matching branch
overwrites `intent` and appends to `requiredAgents`; defaults to the
Bookkeeping Agent when no branch matched. -/
def fallbackIntentAnalysis (userMessage : String) : CFORequest :=
  let message := toLowerCase userMessage
  let bk := includes message "transaction" || includes message "expense" ||
    includes message "categorize"
  let inv := includes message "invoice" || includes message "bill" ||
    includes message "payment" ||
    (includes message "create" &&
      (includes message "joakim" || includes message "client"))
  let rcp := includes message "receipt" || includes message "kvitto" ||
    includes message "expense photo" || includes message "upload photo" ||
    includes message "scan receipt"
  let rpt := includes message "report" || includes message "analysis" ||
    includes message "summary"
  let ana := includes message "cash flow" || includes message "profit" ||
    includes message "revenue"
  let st0 : String × List String := ("general", [])
  let st1 := if bk then ("bookkeeping", st0.2 ++ ["Bookkeeping Agent"]) else st0
  let st2 := if inv then ("invoicing", st1.2 ++ ["Invoicing Agent"]) else st1
  let st3 := if rcp then ("receipts", st2.2 ++ ["Receipts Agent"]) else st2
  let st4 := if rpt then ("reporting", st3.2 ++ ["Reporting Agent"]) else st3
  let st5 := if ana then
    ("analysis", st4.2 ++ ["Reporting Agent", "Bookkeeping Agent"]) else st4
  let agents := defaultIfEmpty st5.2
  { userMessage := userMessage
    intent := st5.1
    entities := []
    requiredAgents := agents
    reasoning := "Fallback keyword matching"
    confidence := 1/2 }

/-! ### Orchestrator dispatch loop (`CFOOrchestrator.processMessage`)

A thrown JS exception is modelled as `Except.error`; an agent's
`processTask` is a function from the task description to
`Except String AgentResult`. -/

/-- `AgentResponse` as consumed by the orchestrator loop: the `data`
payload is kept abstract as a string. -/
structure AgentResult where
  success : Bool
  message : String
  data : String
  insights : Option (List String)

/-- The `result` field of an activity entry: either the agent's data
payload or an error record `\x7berror: <message>\x7d`. -/
inductive ActivityResult where
  | payload (d : String)
  | err (msg : String)
  deriving Repr, DecidableEq

/-- One entry of `agentActivities`. -/
structure Activity where
  agent : String
  action : String
  status : String
  result : ActivityResult
  deriving Repr, DecidableEq

/-- A registered agent: name, domain type, active flag, and
`processTask` behaviour keyed by the task description. -/
structure AgentSpec where
  name : String
  type : String
  isActive : Bool
  behavior : String → Except String AgentResult

/-- `CFOOrchestrator.generateTaskDescription`. -/
def generateTaskDescription (intent userMessage agentType : String) : String :=
  if agentType = "bookkeeping" then
    "Analyzing " ++ intent ++ " request: \"" ++ userMessage ++ "\""
  else if agentType = "invoicing" then
    "Processing invoice-related request: \"" ++ userMessage ++ "\""
  else if agentType = "receipts" then
    "Processing receipt-related request: \"" ++ userMessage ++ "\""
  else if agentType = "reporting" then
    "Generating financial insights for: \"" ++ userMessage ++ "\""
  else "Processing " ++ agentType ++ " task"

/-- `CFOOrchestrator.generateCFOResponse`: static per-intent template. -/
def generateCFOResponse (intent : String) : String :=
  if intent = "bookkeeping" then
    "I have analyzed your bookkeeping data and found some key insights."
  else if intent = "invoicing" then
    "I have reviewed your invoicing and payment information."
  else if intent = "receipts" then
    "I have processed your receipt and expense information."
  else if intent = "reporting" then
    "I have generated comprehensive financial reports and analysis."
  else if intent = "analysis" then
    "I have performed a detailed financial analysis across multiple areas."
  else "I have coordinated with my specialized agents to address your request."

/-- JS `try ... catch`: run the body; on a thrown exception run the
handler with the error message. -/
def jsTryCatch {α : Type} (body : Except String α)
    (handler : String → Except String α) : Except String α :=
  match body with
  | Except.ok a => Except.ok a
  | Except.error e => handler e

/-- Insights contributed by one agent call:
`if (result.success && result.insights) insights.push(...)`. -/
def insightsOf (r : AgentResult) : List String :=
  if r.success then
    match r.insights with
    | some l => l
    | none => []
  else []

/-- Activity entry pushed when `processTask` returns normally. -/
def okActivity (agent : AgentSpec) (desc : String) (r : AgentResult) : Activity :=
  { agent := agent.name
    action := desc
    status := if r.success then "completed" else "failed"
    result := if r.success then ActivityResult.payload r.data
      else ActivityResult.err r.message }

/-- Activity entry pushed in the `catch` branch when `processTask`
throws: status "failed", result `\x7berror: <message>\x7d`. -/
def failActivity (agent : AgentSpec) (desc : String) (msg : String) : Activity :=
  { agent := agent.name
    action := desc
    status := "failed"
    result := ActivityResult.err msg }

/-- The try/catch-wrapped body of one loop iteration: invoke the agent
and turn the outcome into an activity entry plus contributed insights. -/
def agentStep (agent : AgentSpec) (desc : String) :
    Except String (Activity × List String) :=
  jsTryCatch
    (match agent.behavior desc with
     | Except.error e => Except.error e
     | Except.ok r => Except.ok (okActivity agent desc r, insightsOf r))
    (fun msg => Except.ok (failActivity agent desc msg, []))

/-- The entry one resolved agent contributes, by its own outcome. -/
def agentEntry (agent : AgentSpec) (desc : String) : Activity × List String :=
  match agent.behavior desc with
  | Except.error msg => (failActivity agent desc msg, [])
  | Except.ok r => (okActivity agent desc r, insightsOf r)

/-- The `for (const agentName of request.requiredAgents)` loop of
`processMessage`: look up each name, skip missing or inactive agents,
run each resolved agent inside try/catch, accumulate activity entries
and insights in order. An uncaught exception would propagate as
`Except.error`. -/
def runAgents (reg : String → Option AgentSpec) (intent userMessage : String) :
    List String → Except String (List Activity × List String)
  | [] => Except.ok ([], [])
  | n :: rest =>
    match reg n with
    | none => runAgents reg intent userMessage rest
    | some agent =>
      if agent.isActive then
        match agentStep agent (generateTaskDescription intent userMessage agent.type) with
        | Except.error e => Except.error e
        | Except.ok (a, ins) =>
          match runAgents reg intent userMessage rest with
          | Except.error e => Except.error e
          | Except.ok (acts, inss) => Except.ok (a :: acts, ins ++ inss)
      else runAgents reg intent userMessage rest

/-- Exception-free evaluation of the dispatch loop. -/
def runAgentsTotal (reg : String → Option AgentSpec) (intent userMessage : String) :
    List String → List Activity × List String
  | [] => ([], [])
  | n :: rest =>
    let p := runAgentsTotal reg intent userMessage rest
    match reg n with
    | none => p
    | some agent =>
      if agent.isActive then
        let e := agentEntry agent (generateTaskDescription intent userMessage agent.type)
        (e.1 :: p.1, e.2 ++ p.2)
      else p

/-- `processMessage` output: merged reply, activity log, insights. -/
structure OrchestratorOutput where
  response : String
  agentActivities : List Activity
  insights : List String

/-- `CFOOrchestrator.processMessage` after intent classification: run
the dispatch loop and wrap the aggregate. -/
def processMessage (reg : String → Option AgentSpec) (request : CFORequest) :
    Except String OrchestratorOutput :=
  match runAgents reg request.intent request.userMessage request.requiredAgents with
  | Except.error e => Except.error e
  | Except.ok (acts, ins) =>
    Except.ok
      { response := generateCFOResponse request.intent
        agentActivities := acts
        insights := ins }

/-! ### Concrete fixtures used by the witnesses -/

/-- A successful agent result with one insight. -/
def wOkResult : AgentResult :=
  { success := true, message := "ok", data := "payload-A",
    insights := some ["insight-A"] }

/-- An active agent whose task always succeeds. -/
def wAgentA : AgentSpec :=
  { name := "A", type := "bookkeeping", isActive := true,
    behavior := fun _ => Except.ok wOkResult }

/-- An active agent whose task always throws. -/
def wAgentB : AgentSpec :=
  { name := "B", type := "invoicing", isActive := true,
    behavior := fun _ => Except.error "boom" }

/-- An unsuccessful (but not thrown) agent result. -/
def wBadResult : AgentResult :=
  { success := false, message := "no data", data := "", insights := none }

/-- An active agent whose task returns an unsuccessful result. -/
def wAgentC : AgentSpec :=
  { name := "C", type := "reporting", isActive := true,
    behavior := fun _ => Except.ok wBadResult }

/-- A registry holding the three fixture agents. -/
def wReg : String → Option AgentSpec := fun n =>
  if n = "A" then some wAgentA
  else if n = "B" then some wAgentB
  else if n = "C" then some wAgentC
  else none

/-- A request dispatching to agents A then B. -/
def wRequest : CFORequest :=
  { userMessage := "hello agents", intent := "general", entities := [],
    requiredAgents := ["A", "B"], reasoning := "", confidence := 1/2 }

/-- A request dispatching to agents A, B, C in that order. -/
def wRequest3 : CFORequest :=
  { userMessage := "hello agents", intent := "general", entities := [],
    requiredAgents := ["A", "B", "C"], reasoning := "", confidence := 1/2 }

/-! ### Receipts agent (`src/lib/utils/file-upload.ts`) -/

/-- A persisted receipt row as read by `approveReceipts`; `category` is
`none` when the column is null. Amounts are rationals. -/
structure Receipt where
  id : Nat
  receipt_number : String
  vendor_name : String
  amount : ℚ
  category : Option String
  status : String
  deriving Repr, DecidableEq

/-- JS truthiness of the `category` column: null/undefined and the
empty string are falsy. -/
def truthyCategory : Option String → Bool
  | none => false
  | some s => s != ""

/-- `const autoApproveLimit = 1000 // SEK`. -/
def autoApproveLimit : ℚ := 1000

/-- The auto-approval filter predicate of `approveReceipts`:
`Number(rec.amount) <= autoApproveLimit && rec.category &&
rec.vendor_name !== "Unknown Vendor"`. -/
def autoApprove (rec : Receipt) : Bool :=
  decide (rec.amount ≤ autoApproveLimit) && truthyCategory rec.category &&
    (rec.vendor_name != "Unknown Vendor")

/-- `receiptsToApprove = pendingReceipts.filter(...)`. -/
def receiptsToApprove (pending : List Receipt) : List Receipt :=
  pending.filter autoApprove

/-- `remainingPending = pendingReceipts.filter(rec =>
!receiptsToApprove.find(approved => approved.id === rec.id))`. -/
def remainingPending (pending : List Receipt) : List Receipt :=
  pending.filter fun rec =>
    !((receiptsToApprove pending).any fun a => a.id == rec.id)

/-- The manual-review reason rendered for a remaining receipt:
`Number(rec.amount) > autoApproveLimit ? 'Belopp för högt' :
'Ofullständig information'`. -/
def manualReviewReason (rec : Receipt) : String :=
  if autoApproveLimit < rec.amount then "Belopp för högt"
  else "Ofullständig information"

/-- JS `Math.round`: round half toward positive infinity. -/
def jsRound (q : ℚ) : ℤ := ⌊q + 1/2⌋

/-- Round to two decimals as the source does:
`Math.round(x * 100) / 100`. -/
def round2 (q : ℚ) : ℚ := (jsRound (q * 100) : ℚ) / 100

/-- `createReceipt` tax back-calculation:
`Math.round(amount * taxRate / (1 + taxRate) * 100) / 100`. -/
def taxAmountOf (gross rate : ℚ) : ℚ := round2 (gross * rate / (1 + rate))

/-- `netAmount = amount - taxAmount`. -/
def netAmountOf (gross rate : ℚ) : ℚ := gross - taxAmountOf gross rate

/-- JS `a || b` over an optional numeric column: null/undefined and 0
are falsy. Used for `categoryInfo?.default_tax_rate || 25.00`. -/
def jsOrNum (a : Option ℚ) (b : ℚ) : ℚ :=
  match a with
  | none => b
  | some x => if x = 0 then b else x

/-- The `newReceiptData` payload built by `createReceipt`. -/
structure NewReceiptData where
  receipt_number : String
  vendor_name : String
  amount : ℚ
  currency : String
  category : String
  description : String
  tax_amount : ℚ
  payment_method : String
  status : String
  submitted_by : String
  deriving Repr, DecidableEq

/-- `ReceiptsAgent.createReceipt`, lines 296-338: extraction of amount,
vendor and category from the task description is represented by the
optional results of the three regex matches (`amountMatch`,
`vendorMatch`, `categoryMatch`); a `none` models a failed match, a
`some` carries the captured text/number. Defaults: amount 0, vendor
"Unknown Vendor", category "Kontorsmaterial"; tax is back-calculated
from the gross amount at the category rate (default 25%); the row is
inserted with status "pending". -/
def createReceiptData (description nextNumber : String)
    (amountMatch : Option ℚ) (vendorMatch categoryMatch : Option String)
    (defaultTaxRate : Option ℚ) : NewReceiptData :=
  let amount := match amountMatch with | some a => a | none => 0
  let vendorName := match vendorMatch with | some v => v.trim | none => "Unknown Vendor"
  let category := match categoryMatch with | some c => c.trim | none => "Kontorsmaterial"
  let taxRate := jsOrNum defaultTaxRate 25 / 100
  { receipt_number := nextNumber
    vendor_name := vendorName
    amount := amount
    currency := "SEK"
    category := category
    description := description
    tax_amount := taxAmountOf amount taxRate
    payment_method := "card"
    status := "pending"
    submitted_by := "user" }

/-- The created row as it later appears to `approveReceipts`. -/
def asPendingReceipt (d : NewReceiptData) (newId : Nat) : Receipt :=
  { id := newId
    receipt_number := d.receipt_number
    vendor_name := d.vendor_name
    amount := d.amount
    category := some d.category
    status := d.status }

/-! ### Invoice numbering and client risk (invoicing agent, `src/unnamed/part_003`) -/

/-- JS `String.prototype.split` with a single-character separator. -/
def splitOnChar (sep : Char) : List Char → List (List Char)
  | [] => [[]]
  | c :: rest =>
    match splitOnChar sep rest with
    | [] => [[c]]
    | g :: gs => if c = sep then [] :: g :: gs else (c :: g) :: gs

/-- Digit-prefix semantics of JS `Number.parseInt` on base-10 input:
`none` models `NaN`. -/
def jsParseIntNat (s : String) : Option Nat :=
  let ds := s.toList.takeWhile Char.isDigit
  if ds.isEmpty then none
  else some (ds.foldl (fun n c => 10 * n + (c.toNat - 48)) 0)

/-- JS `String.prototype.padStart(3, "0")`. -/
def padStart3 (s : String) : String :=
  if s.length ≥ 3 then s
  else String.mk (List.replicate (3 - s.length) '0') ++ s

/-- The invoice-number generation step of `InvoicingAgent.generateInvoice`
(part_003 lines 348-358): read the most recently created invoice number,
take the third dash-separated field, parse and increment it, zero-pad to
3 digits under the fixed year prefix; start at "INV-2025-001" when no
invoice exists. A `NaN` suffix (unparsable field) renders as "NaN". -/
def nextInvoiceNumber (lastInvoiceNumber : Option String) : String :=
  match lastInvoiceNumber with
  | none => "INV-2025-001"
  | some s =>
    match (splitOnChar '-' s.toList).get? 2 with
    | none => "INV-2025-NaN"
    | some part =>
      match jsParseIntNat (String.mk part) with
      | none => "INV-2025-NaN"
      | some n => "INV-2025-" ++ padStart3 (toString (n + 1))

/-- `InvoicingAgent.assessClientRisk` (part_003 lines 950-955): a falsy
`payment_terms` (absent or 0) is "unknown"; then ≤ 15 is "low", ≤ 30 is
"medium", otherwise "high". -/
def assessClientRisk (payment_terms : Option ℚ) : String :=
  match payment_terms with
  | none => "unknown"
  | some t =>
    if t = 0 then "unknown"
    else if t ≤ 15 then "low"
    else if t ≤ 30 then "medium"
    else "high"

/-- The scenario-D receipt at the threshold: amount 1000, category
"Kontorsmaterial", vendor "Office Depot". -/
def wReceipt1000 : Receipt :=
  { id := 1, receipt_number := "REC-2025-001", vendor_name := "Office Depot",
    amount := 1000, category := some "Kontorsmaterial", status := "pending" }

/-- The same receipt one öre above the threshold. -/
def wReceipt1000_01 : Receipt :=
  { id := 2, receipt_number := "REC-2025-002", vendor_name := "Office Depot",
    amount := 100001/100, category := some "Kontorsmaterial", status := "pending" }

/-! ### Schema-drift tolerant insert (`InvoicingAgent.safeInsertInvoice`,
`src/unnamed/part_003` lines 524-555)

The persistence layer is external: it is modelled as a function from
the insert payload (an association list column → value) to a result.
The JS regex that pulls the missing column name out of the PostgREST
error message is modelled by the function `extractMissingCol`. -/

/-- A PostgREST error as inspected by `safeInsertInvoice`. -/
structure PgError where
  code : Option String
  message : String
  deriving Repr, DecidableEq

/-- Result of one insert attempt / of the whole operation. -/
inductive DbResult where
  | ok (row : String)
  | err (e : PgError)
  deriving Repr, DecidableEq

/-- The error returned after the retry budget is exhausted:
`\x7b message: "Failed to insert invoice after retries" \x7d`. -/
def genericInsertFailure : PgError :=
  { code := none, message := "Failed to insert invoice after retries" }

/-- `const maxRetries = 4`. -/
def maxRetries : Nat := 4

/-- The retry loop of `safeInsertInvoice`, with the remaining attempt
budget as fuel: attempt the insert; on success or on a non-schema-drift
error return that result; when the error has code "PGRST204" and the
extracted missing column is present in the payload, strip the column
and retry; with no budget left return the generic failure. -/
def safeInsertLoop (db : List (String × String) → DbResult)
    (extractMissingCol : String → Option String) :
    Nat → List (String × String) → DbResult
  | 0, _ => DbResult.err genericInsertFailure
  | fuel + 1, working =>
    match db working with
    | DbResult.ok row => DbResult.ok row
    | DbResult.err e =>
      if e.code == some "PGRST204" then
        match extractMissingCol e.message with
        | some col =>
          if working.any (fun kv => kv.1 == col) then
            safeInsertLoop db extractMissingCol fuel
              (working.filter fun kv => kv.1 != col)
          else DbResult.err e
        | none => DbResult.err e
      else DbResult.err e

/-- `InvoicingAgent.safeInsertInvoice`: the loop with budget 4. -/
def safeInsertInvoice (db : List (String × String) → DbResult)
    (extractMissingCol : String → Option String)
    (payload : List (String × String)) : DbResult :=
  safeInsertLoop db extractMissingCol maxRetries payload

/-- A store that rejects every insert, always blaming the payload's
first column. -/
def wInsertDb : List (String × String) → DbResult := fun p =>
  DbResult.err
    { code := some "PGRST204"
      message := match p with | [] => "none" | kv :: _ => kv.1 }

/-- A column extractor that reads the column name from the message. -/
def wExtract : String → Option String := fun m => some m

/-- A four-column invoice payload. -/
def wPayload : List (String × String) :=
  [("invoice_number", "INV-2025-001"), ("client_id", "c1"),
   ("subtotal", "10000"), ("currency", "SEK")]

/-! ### Theorems -/

theorem defaultIfEmpty_ne_nil (l : List String) : defaultIfEmpty l ≠ [] := by
  unfold defaultIfEmpty
  split
  · simp
  · assumption

/-- C2 counterexample: "invoice report" contains "invoice" and contains
neither "receipt" nor "kvitto", yet the fallback classifier's reporting
branch runs after the invoicing branch and overwrites the intent, so the
returned intent is "reporting", not "invoicing". -/
theorem fallback_invoicing_intent_cex :
    includes (toLowerCase "invoice report") "invoice" = true ∧
    includes (toLowerCase "invoice report") "receipt" = false ∧
    includes (toLowerCase "invoice report") "kvitto" = false ∧
    (fallbackIntentAnalysis "invoice report").intent = "reporting" ∧
    (fallbackIntentAnalysis "invoice report").intent ≠ "invoicing" := by
  decide

/-- C2 (amended): for every message whose lower-cased form contains
"invoice", the fallback classifier puts "Invoicing Agent" in
`requiredAgents` and returns confidence exactly 0.5; if additionally the
lower-cased form contains none of the keywords of the later branches
(receipts: "receipt", "kvitto", "expense photo", "upload photo",
"scan receipt"; reporting: "report", "analysis", "summary"; analysis:
"cash flow", "profit", "revenue"), the returned intent is "invoicing". -/
theorem fallback_invoicing_intent (userMessage : String)
    (hinv : includes (toLowerCase userMessage) "invoice" = true)
    (h1 : includes (toLowerCase userMessage) "receipt" = false)
    (h2 : includes (toLowerCase userMessage) "kvitto" = false)
    (h3 : includes (toLowerCase userMessage) "expense photo" = false)
    (h4 : includes (toLowerCase userMessage) "upload photo" = false)
    (h5 : includes (toLowerCase userMessage) "scan receipt" = false)
    (h6 : includes (toLowerCase userMessage) "report" = false)
    (h7 : includes (toLowerCase userMessage) "analysis" = false)
    (h8 : includes (toLowerCase userMessage) "summary" = false)
    (h9 : includes (toLowerCase userMessage) "cash flow" = false)
    (h10 : includes (toLowerCase userMessage) "profit" = false)
    (h11 : includes (toLowerCase userMessage) "revenue" = false) :
    (fallbackIntentAnalysis userMessage).intent = "invoicing" ∧
    "Invoicing Agent" ∈ (fallbackIntentAnalysis userMessage).requiredAgents ∧
    (fallbackIntentAnalysis userMessage).confidence = 1/2 := by
  cases hbk : (includes (toLowerCase userMessage) "transaction" ||
      includes (toLowerCase userMessage) "expense" ||
      includes (toLowerCase userMessage) "categorize") <;>
    simp [fallbackIntentAnalysis, defaultIfEmpty, hbk, hinv,
      h1, h2, h3, h4, h5, h6, h7, h8, h9, h10, h11]

/-- C2 witness: the message "invoice" satisfies all the hypotheses. -/
theorem fallback_invoicing_intent_witness :
    (fallbackIntentAnalysis "invoice").intent = "invoicing" ∧
    "Invoicing Agent" ∈ (fallbackIntentAnalysis "invoice").requiredAgents ∧
    (fallbackIntentAnalysis "invoice").confidence = 1/2 :=
  fallback_invoicing_intent "invoice" (by decide) (by decide) (by decide)
    (by decide) (by decide) (by decide) (by decide) (by decide) (by decide)
    (by decide) (by decide) (by decide)

/-- C8: the fallback classifier always returns a non-empty
`requiredAgents` list, and on the keyword-free input "hello" it returns
exactly ["Bookkeeping Agent"], intent "general" and confidence 0.5. -/
theorem fallback_default_nonempty :
    (∀ userMessage : String,
      (fallbackIntentAnalysis userMessage).requiredAgents ≠ []) ∧
    (fallbackIntentAnalysis "hello").requiredAgents = ["Bookkeeping Agent"] ∧
    (fallbackIntentAnalysis "hello").intent = "general" ∧
    (fallbackIntentAnalysis "hello").confidence = 1/2 := by
  refine ⟨fun userMessage => ?_, by decide, by decide, rfl⟩
  exact defaultIfEmpty_ne_nil _

theorem agentStep_eq_ok (agent : AgentSpec) (desc : String) :
    agentStep agent desc = Except.ok (agentEntry agent desc) := by
  unfold agentStep agentEntry jsTryCatch
  cases agent.behavior desc <;> rfl

theorem runAgents_eq_ok (reg : String → Option AgentSpec)
    (intent userMessage : String) (l : List String) :
    runAgents reg intent userMessage l =
      Except.ok (runAgentsTotal reg intent userMessage l) := by
  induction l with
  | nil => rfl
  | cons n rest ih =>
    unfold runAgents runAgentsTotal
    cases hr : reg n with
    | none => simpa using ih
    | some agent =>
      by_cases hact : agent.isActive = true
      · simp only [hact, if_true, agentStep_eq_ok, ih]
      · simp only [Bool.not_eq_true] at hact
        simpa [hact] using ih

theorem runAgentsTotal_append (reg : String → Option AgentSpec)
    (intent userMessage : String) (l1 l2 : List String) :
    runAgentsTotal reg intent userMessage (l1 ++ l2) =
      ((runAgentsTotal reg intent userMessage l1).1 ++
        (runAgentsTotal reg intent userMessage l2).1,
       (runAgentsTotal reg intent userMessage l1).2 ++
        (runAgentsTotal reg intent userMessage l2).2) := by
  induction l1 with
  | nil => simp [runAgentsTotal]
  | cons n rest ih =>
    simp only [List.cons_append, runAgentsTotal]
    cases hr : reg n with
    | none => simpa using ih
    | some agent =>
      by_cases hact : agent.isActive = true
      · simp [hact, ih]
      · simp only [Bool.not_eq_true] at hact
        simpa [hact] using ih

/-- C1: failure isolation in `processMessage`. If the required agents
are `pre ++ b :: suf` and agent `b` resolves, is active, and throws,
then the call still returns normally (`Except.ok`), the activity log is
the entries of `pre`, then a entry for `b` with status "failed" and
result `\x7berror: <message>\x7d`, then the entries of `suf` according
to their own outcomes, and the insights of `pre` and `suf` are kept. -/
theorem processMessage_failure_isolation
    (reg : String → Option AgentSpec) (request : CFORequest)
    (pre suf : List String) (b : String) (sb : AgentSpec) (msg : String)
    (hreq : request.requiredAgents = pre ++ b :: suf)
    (hb : reg b = some sb) (hact : sb.isActive = true)
    (hthrow : sb.behavior
      (generateTaskDescription request.intent request.userMessage sb.type) =
      Except.error msg) :
    (failActivity sb
      (generateTaskDescription request.intent request.userMessage sb.type)
      msg).status = "failed" ∧
    (failActivity sb
      (generateTaskDescription request.intent request.userMessage sb.type)
      msg).result = ActivityResult.err msg ∧
    processMessage reg request = Except.ok
      { response := generateCFOResponse request.intent
        agentActivities :=
          (runAgentsTotal reg request.intent request.userMessage pre).1 ++
          failActivity sb
            (generateTaskDescription request.intent request.userMessage sb.type)
            msg ::
          (runAgentsTotal reg request.intent request.userMessage suf).1
        insights :=
          (runAgentsTotal reg request.intent request.userMessage pre).2 ++
          (runAgentsTotal reg request.intent request.userMessage suf).2 } := by
  refine ⟨rfl, rfl, ?_⟩
  unfold processMessage
  rw [hreq, runAgents_eq_ok, runAgentsTotal_append]
  simp [runAgentsTotal, hb, hact, agentEntry, hthrow]

/-- C1 witness: with concrete agents A (succeeds) and B (throws),
`processMessage` returns normally with B marked failed. -/
theorem processMessage_failure_isolation_witness :
    (failActivity wAgentB
      (generateTaskDescription wRequest.intent wRequest.userMessage wAgentB.type)
      "boom").status = "failed" ∧
    (failActivity wAgentB
      (generateTaskDescription wRequest.intent wRequest.userMessage wAgentB.type)
      "boom").result = ActivityResult.err "boom" ∧
    processMessage wReg wRequest = Except.ok
      { response := generateCFOResponse wRequest.intent
        agentActivities :=
          (runAgentsTotal wReg wRequest.intent wRequest.userMessage ["A"]).1 ++
          failActivity wAgentB
            (generateTaskDescription wRequest.intent wRequest.userMessage wAgentB.type)
            "boom" ::
          (runAgentsTotal wReg wRequest.intent wRequest.userMessage []).1
        insights :=
          (runAgentsTotal wReg wRequest.intent wRequest.userMessage ["A"]).2 ++
          (runAgentsTotal wReg wRequest.intent wRequest.userMessage []).2 } :=
  processMessage_failure_isolation wReg wRequest ["A"] [] "B" wAgentB "boom"
    rfl rfl rfl rfl

/-- C4: dispatch and insight ordering. For `requiredAgents = [A, B, C]`
with all three resolving to active agents, the activity log is exactly
A's entry, then B's, then C's, and the merged insights are A's then B's
then C's, each entry determined by its own agent's outcome. -/
theorem processMessage_dispatch_order
    (reg : String → Option AgentSpec) (request : CFORequest)
    (nA nB nC : String) (sa sb sc : AgentSpec)
    (hreq : request.requiredAgents = [nA, nB, nC])
    (ha : reg nA = some sa) (haa : sa.isActive = true)
    (hb : reg nB = some sb) (hba : sb.isActive = true)
    (hc : reg nC = some sc) (hca : sc.isActive = true) :
    processMessage reg request = Except.ok
      { response := generateCFOResponse request.intent
        agentActivities :=
          [(agentEntry sa (generateTaskDescription request.intent request.userMessage sa.type)).1,
           (agentEntry sb (generateTaskDescription request.intent request.userMessage sb.type)).1,
           (agentEntry sc (generateTaskDescription request.intent request.userMessage sc.type)).1]
        insights :=
          (agentEntry sa (generateTaskDescription request.intent request.userMessage sa.type)).2 ++
          (agentEntry sb (generateTaskDescription request.intent request.userMessage sb.type)).2 ++
          (agentEntry sc (generateTaskDescription request.intent request.userMessage sc.type)).2 } := by
  unfold processMessage
  rw [hreq, runAgents_eq_ok]
  simp [runAgentsTotal, ha, haa, hb, hba, hc, hca]

/-- C4 witness: agents A, B, C dispatched in order on a concrete
request. -/
theorem processMessage_dispatch_order_witness :
    processMessage wReg wRequest3 = Except.ok
      { response := generateCFOResponse wRequest3.intent
        agentActivities :=
          [(agentEntry wAgentA (generateTaskDescription wRequest3.intent wRequest3.userMessage wAgentA.type)).1,
           (agentEntry wAgentB (generateTaskDescription wRequest3.intent wRequest3.userMessage wAgentB.type)).1,
           (agentEntry wAgentC (generateTaskDescription wRequest3.intent wRequest3.userMessage wAgentC.type)).1]
        insights :=
          (agentEntry wAgentA (generateTaskDescription wRequest3.intent wRequest3.userMessage wAgentA.type)).2 ++
          (agentEntry wAgentB (generateTaskDescription wRequest3.intent wRequest3.userMessage wAgentB.type)).2 ++
          (agentEntry wAgentC (generateTaskDescription wRequest3.intent wRequest3.userMessage wAgentC.type)).2 } :=
  processMessage_dispatch_order wReg wRequest3 "A" "B" "C" wAgentA wAgentB wAgentC
    rfl rfl rfl rfl rfl rfl rfl

/-- C5: invoice numbering. With no prior invoice the generated number is
"INV-2025-001"; with a most recent invoice numbered "INV-2025-007" the
next is "INV-2025-008" (suffix incremented and zero-padded to 3 digits
under the fixed year prefix). -/
theorem invoice_numbering :
    nextInvoiceNumber none = "INV-2025-001" ∧
    nextInvoiceNumber (some "INV-2025-007") = "INV-2025-008" := by
  decide

/-- C7: tax back-calculation round trip. The tax equals the gross times
rate/(1+rate) rounded to two decimals, the net is gross minus tax, and
tax + net recovers the gross exactly, in both orders. -/
theorem tax_round_trip (gross rate : ℚ) :
    taxAmountOf gross rate = round2 (gross * rate / (1 + rate)) ∧
    netAmountOf gross rate = gross - taxAmountOf gross rate ∧
    taxAmountOf gross rate + netAmountOf gross rate = gross ∧
    netAmountOf gross rate + taxAmountOf gross rate = gross := by
  refine ⟨rfl, rfl, ?_, ?_⟩ <;>
    (unfold netAmountOf; ring)

/-- C9 counterexample: a client whose payment terms are 0 days has
payment terms ≤ 15, yet `assessClientRisk` classifies it "unknown"
(0 is falsy in JS), not "low". -/
theorem assessClientRisk_cex :
    (0 : ℚ) ≤ 15 ∧ assessClientRisk (some 0) = "unknown" ∧
    assessClientRisk (some 0) ≠ "low" := by
  refine ⟨by norm_num, ?_, ?_⟩ <;> simp [assessClientRisk]

/-- C9 (amended): for every client with a set, nonzero payment-terms
value, risk is a step function of the terms: ≤ 15 days is "low",
15 < terms ≤ 30 is "medium", anything larger is "high"; missing payment
terms are classified "unknown". -/
theorem assessClientRisk_step (t : ℚ) (ht : t ≠ 0) :
    (t ≤ 15 → assessClientRisk (some t) = "low") ∧
    (15 < t → t ≤ 30 → assessClientRisk (some t) = "medium") ∧
    (30 < t → assessClientRisk (some t) = "high") ∧
    assessClientRisk none = "unknown" := by
  refine ⟨fun h => ?_, fun h1 h2 => ?_, fun h => ?_, rfl⟩
  · simp [assessClientRisk, ht, h]
  · simp [assessClientRisk, ht, h2, not_le.mpr h1]
  · have h15 : ¬ t ≤ 15 := by linarith
    have h30 : ¬ t ≤ 30 := by linarith
    simp [assessClientRisk, ht, h15, h30]

/-- C9 witness: a client with 10-day payment terms is classified
"low". -/
theorem assessClientRisk_step_witness :
    ((10 : ℚ) ≤ 15 → assessClientRisk (some 10) = "low") ∧
    (15 < (10 : ℚ) → (10 : ℚ) ≤ 30 → assessClientRisk (some 10) = "medium") ∧
    (30 < (10 : ℚ) → assessClientRisk (some 10) = "high") ∧
    assessClientRisk none = "unknown" :=
  assessClientRisk_step 10 (by norm_num)

/-- C6: receipt auto-approval boundary. In `approveReceipts`, every
pending receipt with amount ≤ 1000, a truthy category and a vendor other
than the sentinel "Unknown Vendor" is selected for auto-approval; every
other pending receipt remains for manual review, with reason "Belopp för
högt" exactly when the amount exceeds the limit and "Ofullständig
information" otherwise. The threshold receipt (1000, valid fields) is
approved; the same receipt at 1000.01 is not. -/
theorem approveReceipts_boundary
    (pending : List Receipt) (r : Receipt)
    (hids : (pending.map Receipt.id).Nodup) (hr : r ∈ pending) :
    (autoApprove r = true → r ∈ receiptsToApprove pending) ∧
    (autoApprove r = false →
      r ∈ remainingPending pending ∧
      (autoApproveLimit < r.amount → manualReviewReason r = "Belopp för högt") ∧
      (r.amount ≤ autoApproveLimit →
        manualReviewReason r = "Ofullständig information")) ∧
    autoApprove wReceipt1000 = true ∧
    autoApprove wReceipt1000_01 = false := by
  refine ⟨fun h => List.mem_filter.mpr ⟨hr, h⟩, fun h => ⟨?_, ?_, ?_⟩, ?_, ?_⟩
  · refine List.mem_filter.mpr ⟨hr, ?_⟩
    have hany : ((receiptsToApprove pending).any fun a => a.id == r.id) = false := by
      rw [List.any_eq_false]
      intro a ha hbeq
      have ham := List.mem_filter.mp ha
      have hid : a.id = r.id := by simpa using hbeq
      have har : a = r := List.inj_on_of_nodup_map hids ham.1 hr hid
      have htrue : autoApprove r = true := har ▸ ham.2
      rw [htrue] at h
      simp at h
    simp [hany]
  · intro hlt
    simp [manualReviewReason, hlt]
  · intro hle
    simp [manualReviewReason, not_lt.mpr hle]
  · norm_num [autoApprove, wReceipt1000, truthyCategory, autoApproveLimit]
    all_goals decide
  · norm_num [autoApprove, wReceipt1000_01, truthyCategory, autoApproveLimit]

/-- C6 witness: on the pending list holding the two scenario-D receipts,
the threshold receipt is in the auto-approval batch. -/
theorem approveReceipts_boundary_witness :
    (autoApprove wReceipt1000 = true →
      wReceipt1000 ∈ receiptsToApprove [wReceipt1000, wReceipt1000_01]) ∧
    (autoApprove wReceipt1000 = false →
      wReceipt1000 ∈ remainingPending [wReceipt1000, wReceipt1000_01] ∧
      (autoApproveLimit < wReceipt1000.amount →
        manualReviewReason wReceipt1000 = "Belopp för högt") ∧
      (wReceipt1000.amount ≤ autoApproveLimit →
        manualReviewReason wReceipt1000 = "Ofullständig information")) ∧
    autoApprove wReceipt1000 = true ∧
    autoApprove wReceipt1000_01 = false :=
  approveReceipts_boundary [wReceipt1000, wReceipt1000_01] wReceipt1000
    (by decide) (by simp)

/-- C10: implicit defaulting in `createReceipt`. When none of the three
extraction regexes match the task description, the inserted receipt has
amount 0, vendor "Unknown Vendor", category "Kontorsmaterial" and status
"pending", and — because of the sentinel vendor — such a receipt can
never pass the auto-approval filter. -/
theorem createReceipt_defaults (description nextNumber : String)
    (defaultTaxRate : Option ℚ) (newId : Nat) :
    (createReceiptData description nextNumber none none none defaultTaxRate).amount = 0 ∧
    (createReceiptData description nextNumber none none none defaultTaxRate).vendor_name =
      "Unknown Vendor" ∧
    (createReceiptData description nextNumber none none none defaultTaxRate).category =
      "Kontorsmaterial" ∧
    (createReceiptData description nextNumber none none none defaultTaxRate).status =
      "pending" ∧
    autoApprove (asPendingReceipt
      (createReceiptData description nextNumber none none none defaultTaxRate) newId) =
      false := by
  refine ⟨rfl, rfl, rfl, rfl, ?_⟩
  simp [autoApprove, asPendingReceipt, createReceiptData, truthyCategory]

theorem safeInsertLoop_strip (db : List (String × String) → DbResult)
    (extract : String → Option String) (fuel : Nat)
    (working : List (String × String)) (e : PgError) (col : String)
    (hdbw : db working = DbResult.err e) (hcode : e.code = some "PGRST204")
    (hex : extract e.message = some col)
    (hin : (working.any fun kv => kv.1 == col) = true) :
    safeInsertLoop db extract (fuel + 1) working =
      safeInsertLoop db extract fuel (working.filter fun kv => kv.1 != col) := by
  conv_lhs => rw [safeInsertLoop]
  rw [hdbw]
  simp [hcode, hex, hin]

theorem filter_ne_key_length (working : List (String × String)) (col : String)
    (hk : (working.map Prod.fst).Nodup)
    (hc : (working.any fun kv => kv.1 == col) = true) :
    (working.filter fun kv => kv.1 != col).length + 1 = working.length := by
  induction working with
  | nil => simp at hc
  | cons kv rest ih =>
    simp only [List.map_cons, List.nodup_cons] at hk
    by_cases hkv : kv.1 = col
    · have hrest : rest.filter (fun x => x.1 != col) = rest := by
        apply List.filter_eq_self.mpr
        intro x hx
        have hxne : x.1 ≠ col := by
          intro hxeq
          have hmem : x.1 ∈ List.map Prod.fst rest :=
            List.mem_map_of_mem Prod.fst hx
          rw [hxeq, ← hkv] at hmem
          exact hk.1 hmem
        simpa using hxne
      simp [List.filter_cons, hkv, hrest]
    · have hany : (rest.any fun x => x.1 == col) = true := by
        simpa [List.any_cons, hkv] using hc
      have := ih hk.2 hany
      simp only [List.filter_cons]
      have hne : (kv.1 != col) = true := by simpa using hkv
      simp only [hne, if_true, List.length_cons]
      omega

theorem safeInsertLoop_exhaust (db : List (String × String) → DbResult)
    (extract : String → Option String) (payload : List (String × String))
    (hdb : ∀ p : List (String × String), p.Sublist payload → p ≠ [] →
      ∃ e col, db p = DbResult.err e ∧ e.code = some "PGRST204" ∧
        extract e.message = some col ∧ (p.any fun kv => kv.1 == col) = true) :
    ∀ fuel working, working.Sublist payload → (working.map Prod.fst).Nodup →
      fuel ≤ working.length →
      safeInsertLoop db extract fuel working = DbResult.err genericInsertFailure := by
  intro fuel
  induction fuel with
  | zero => intro working _ _ _; rfl
  | succ n ih =>
    intro working hsub hnd hlen
    have hne : working ≠ [] := by
      intro h0
      rw [h0] at hlen
      simp at hlen
    obtain ⟨e, col, hdbe, hcode, hex, hany⟩ := hdb working hsub hne
    rw [safeInsertLoop_strip db extract n working e col hdbe hcode hex hany]
    have hflen := filter_ne_key_length working col hnd hany
    apply ih
    · exact (List.filter_sublist _).trans hsub
    · exact List.Nodup.sublist ((List.filter_sublist _).map Prod.fst) hnd
    · omega

/-- C3: schema-drift tolerant invoice insert. Whenever an attempt is
rejected with PostgREST code "PGRST204" naming a column present in the
payload, the loop strips that column and retries; and when every
attempt is rejected that way, the budget of `maxRetries = 4` attempts
is exhausted and `safeInsertInvoice` returns the generic
"Failed to insert invoice after retries" error value (it neither
succeeds nor throws). -/
theorem safeInsertInvoice_schema_drift
    (db : List (String × String) → DbResult)
    (extract : String → Option String)
    (payload : List (String × String))
    (hkeys : (payload.map Prod.fst).Nodup)
    (hlen : maxRetries ≤ payload.length)
    (hdb : ∀ p : List (String × String), p.Sublist payload → p ≠ [] →
      ∃ e col, db p = DbResult.err e ∧ e.code = some "PGRST204" ∧
        extract e.message = some col ∧ (p.any fun kv => kv.1 == col) = true) :
    (∀ fuel working e col, db working = DbResult.err e →
      e.code = some "PGRST204" → extract e.message = some col →
      (working.any fun kv => kv.1 == col) = true →
      safeInsertLoop db extract (fuel + 1) working =
        safeInsertLoop db extract fuel (working.filter fun kv => kv.1 != col)) ∧
    safeInsertInvoice db extract payload = DbResult.err genericInsertFailure := by
  refine ⟨fun fuel working e col h1 h2 h3 h4 =>
    safeInsertLoop_strip db extract fuel working e col h1 h2 h3 h4, ?_⟩
  exact safeInsertLoop_exhaust db extract payload hdb maxRetries payload
    (List.Sublist.refl payload) hkeys hlen

/-- C3 witness: against the always-rejecting store, the four-column
payload exhausts the budget and yields the generic failure. -/
theorem safeInsertInvoice_schema_drift_witness :
    (∀ fuel working e col, wInsertDb working = DbResult.err e →
      e.code = some "PGRST204" → wExtract e.message = some col →
      (working.any fun kv => kv.1 == col) = true →
      safeInsertLoop wInsertDb wExtract (fuel + 1) working =
        safeInsertLoop wInsertDb wExtract fuel
          (working.filter fun kv => kv.1 != col)) ∧
    safeInsertInvoice wInsertDb wExtract wPayload =
      DbResult.err genericInsertFailure :=
  safeInsertInvoice_schema_drift wInsertDb wExtract wPayload (by decide)
    (by decide)
    (fun p _ hne => by
      cases p with
      | nil => exact absurd rfl hne
      | cons kv rest =>
        exact ⟨⟨some "PGRST204", kv.1⟩, kv.1, rfl, rfl, rfl, by simp⟩)

end CFO
